import Mathlib

/-!
Shallow embedding of the pymadcad rendering/picking core
(src/madcad/displays.py and src/madcad/scheme.py), with theorems
settling the specification claims about it.

Conventions of the embedding:
* machine floats (positions, normals, colors, layers, matrices) are never
  computed with in the modelled code paths — they are only stored and moved —
  so they are represented by `Int` tuples / opaque `Nat` tokens;
* numpy arrays become `List`s; fancy indexing that can raise `IndexError`
  becomes `Option`-valued access;
* Python functions that can raise return `Option` (`none` = exception);
* GPU side effects (draw calls, buffer uploads) are reified as explicit
  result values (lists of draw records, booleans saying an upload happened).
-/

/-- stand-in for a 3d float vector: only ever copied by the modelled code -/
abbrev Pt := Int × Int × Int

/-- a space generator object (a Python closure); only its identity matters
to the modelled code (`Scheme.set` deduplicates spaces by equality), so it
is an opaque token -/
abbrev SpaceObj := Nat

/-- GL primitive topology (mgl.POINTS / mgl.LINES / mgl.TRIANGLES) -/
inductive Topo
  | points
  | lines
  | triangles
deriving DecidableEq, Repr

/-- which vertex-array of a composite display a draw call goes through -/
inductive Buf
  | faces
  | groups
  | pointsBuf
  | wire
  | edges
deriving DecidableEq, Repr

/-- one GPU draw call issued during an ident pass, reified -/
structure Draw where
  buffer : Buf
  topo : Topo
  start : Nat
deriving DecidableEq, Repr

/-- Python `max(l)`: `none` on the empty list (ValueError) -/
def listMax : List Nat → Option Nat
  | [] => none
  | x :: xs =>
    match listMax xs with
    | none => some x
    | some m => some (Nat.max x m)

/-- `Vertices` (displays.py lines 241-267): the shared vertex store.
`positions`/`idents` live on the GPU after construction; the model keeps
the data needed by the claims.  `transform` is an opaque stored matrix. -/
structure Vertices where
  transform : Nat
  idents : List Nat
  nident : Nat
  flags : List Nat
  flags_updated : Bool
deriving DecidableEq, Repr

/-- `Vertices.__init__` (displays.py lines 244-252): no length check between
`positions` and `idents`; `nident = int(max(idents))+1` (raises on empty
idents); `flags = np.zeros(len(positions), dtype=u1)`. -/
def Vertices.init (positions : List Pt) (idents : List Nat) (transform : Nat := 0) :
    Option Vertices :=
  match listMax idents with
  | none => none
  | some m =>
    some { transform := transform
           idents := idents
           nident := m + 1
           flags := List.replicate positions.length 0
           flags_updated := false }

/-- `Vertices.select` with `state=None` (displays.py line 259):
returns `flags[idents] & 0b1`; `none` models the numpy IndexError when the
ident is out of the flags range. -/
def Vertices.select_get (v : Vertices) (id : Nat) : Option Nat :=
  (v.flags[id]?).map (fun f => f &&& 1)

/-- `Vertices.select` with a boolean `state` (displays.py lines 257-262):
`flags[idents] |= 0b1` or `flags[idents] &= ~0b1` (u1 complement of 1 is
254), then `flags_updated = True`. -/
def Vertices.select_set (v : Vertices) (id : Nat) (state : Bool) : Option Vertices :=
  match v.flags[id]? with
  | none => none
  | some f =>
    some { v with
           flags := v.flags.set id (if state then f ||| 1 else f &&& 254)
           flags_updated := true }

/-- `Vertices.update` (displays.py lines 264-267): uploads the per-vertex
expansion `flags[idents]` to the GPU iff the dirty flag is set, then clears
it.  First component reifies whether the upload happened. -/
def Vertices.update (v : Vertices) : Bool × Vertices :=
  if v.flags_updated then (true, { v with flags_updated := false })
  else (false, v)

/-- the selection state a vertex `k` exhibits on screen: the GPU flags
buffer receives `flags[idents]` (displays.py line 266), so vertex `k`
shows `flags[idents[k]] & 1`. -/
def Vertices.vertexSelected (v : Vertices) (k : Nat) : Option Nat :=
  (v.idents[k]?).bind (fun i => (v.flags[i]?).map (fun f => f &&& 1))

/-! ## Scheme builder (scheme.py) -/

/-- `SVertex` (scheme.py line 15): one scheme vertex record
(space, pos, normal, color, layer, track, flags); float fields are opaque. -/
structure SVert where
  space : Nat
  pos : Pt
  normal : Pt
  color : Nat
  layer : Int
  track : Nat
  flags : Nat
deriving DecidableEq, Repr

/-- the `current['space']` slot holds either a not-yet-registered space
object or, after `Scheme.set` ran, its integer index -/
inductive SpaceRef
  | obj (o : SpaceObj)
  | idx (i : Nat)
deriving DecidableEq, Repr

/-- index carried by a registered space reference; `Scheme.set` always runs
before this is read (scheme.py line 51 calls `set` first), so the `.obj`
case is unreachable in the modelled paths -/
def SpaceRef.index : SpaceRef → Nat
  | .idx i => i
  | .obj _ => 0

/-- the `current` default-vertex template (scheme.py line 25) -/
structure Tmpl where
  space : SpaceRef
  track : Nat
  shader : String
  normal : Pt
  color : Nat
  layer : Int
  flags : Nat
deriving DecidableEq, Repr

/-- keyword overrides accepted by `Scheme.set` / `Scheme.add` -/
structure Kw where
  space : Option SpaceObj := none
  track : Option Nat := none
  shader : Option String := none
  normal : Option Pt := none
  color : Option Nat := none
  layer : Option Int := none
  flags : Option Nat := none
deriving Repr

/-- `self.current.update(kwargs)` (scheme.py line 35) -/
def Tmpl.apply (t : Tmpl) (kw : Kw) : Tmpl :=
  { space := match kw.space with | some o => .obj o | none => t.space
    track := kw.track.getD t.track
    shader := kw.shader.getD t.shader
    normal := kw.normal.getD t.normal
    color := kw.color.getD t.color
    layer := kw.layer.getD t.layer
    flags := kw.flags.getD t.flags }

/-- Python `list.index` returning an `Option` (scheme.py line 38) -/
def idxOf (l : List SpaceObj) (o : SpaceObj) : Option Nat :=
  match l with
  | [] => none
  | x :: xs => if x = o then some 0 else (idxOf xs o).map (· + 1)

/-- `Scheme` (scheme.py lines 17-26): transient builder.  `primitives`
models the Python insertion-ordered dict shader-name -> list of index
tuples.  The `components` list and the `annot` flag carry no logic
used by the claims and are omitted. -/
structure Scheme where
  vertices : List SVert
  spaces : List SpaceObj
  primitives : List (String × List (List Nat))
  current : Tmpl
deriving Repr

/-- the `world` space generator of scheme.py (line 247), as a token -/
def worldSpace : SpaceObj := 0

/-- a fresh `Scheme()` (scheme.py lines 18-26): default template
`color=annotation_color, flags=0, layer=0, space=world, shader='wire',
track=0, normal=fvec3(0)` -/
def Scheme.empty : Scheme :=
  { vertices := []
    spaces := []
    primitives := []
    current := { space := .obj worldSpace, track := 0, shader := "wire"
                 normal := (0, 0, 0), color := 1, layer := 0, flags := 0 } }

/-- space-registration part of `Scheme.set` (scheme.py lines 37-42) -/
def Scheme.registerSpace (s : Scheme) : Scheme :=
  match s.current.space with
  | .idx _ => s
  | .obj o =>
    match idxOf s.spaces o with
    | some i => { s with current := { s.current with space := .idx i } }
    | none =>
      { s with
        spaces := s.spaces ++ [o]
        current := { s.current with space := .idx s.spaces.length } }

/-- `Scheme.set` (scheme.py lines 28-44): update the current template,
then register its space and replace it by a stable index -/
def Scheme.set (s : Scheme) (kw : Kw) : Scheme :=
  Scheme.registerSpace { s with current := s.current.apply kw }

/-- dict read with creation default `[]` (scheme.py lines 52-55) -/
def getPrims (ps : List (String × List (List Nat))) (sh : String) : List (List Nat) :=
  match ps with
  | [] => []
  | (k, v) :: rest => if k = sh then v else getPrims rest sh

/-- dict write preserving insertion order (Python dict semantics) -/
def setPrims (ps : List (String × List (List Nat))) (sh : String)
    (v : List (List Nat)) : List (String × List (List Nat)) :=
  match ps with
  | [] => [(sh, v)]
  | (k, w) :: rest =>
    if k = sh then (sh, v) :: rest else (k, w) :: setPrims rest sh v

/-- `self.vertices[i][5] = track` (scheme.py line 72); out-of-range writes
would raise IndexError in Python and are a no-op here (the claims only
exercise in-range faces) -/
def setTrack (vs : List SVert) (i : Nat) (t : Nat) : List SVert :=
  match vs[i]? with
  | some v => vs.set i { v with track := t }
  | none => vs

/-- `self.vertices[i][2] = n` (scheme.py line 74) -/
def setNormal (vs : List SVert) (i : Nat) (n : Pt) : List SVert :=
  match vs[i]? with
  | some v => vs.set i { v with normal := n }
  | none => vs

/-- `for i,n in enumerate(obj.vertexnormals()): self.vertices[i+l][2] = n`
(scheme.py lines 73-74), with `i` starting relative offset `l` -/
def applyNormals (vs : List SVert) : Nat → List Pt → List SVert
  | _, [] => vs
  | i, n :: ns => applyNormals (setNormal vs i n) (i + 1) ns

/-- Modelled from the spec: the modeling kernel's surface-mesh value
(`Mesh`, not under src/) exposing a point list, triangle index list,
per-face group-id list and a vertex-normal query (spec section 6). -/
structure Mesh where
  points : List Pt
  faces : List (Nat × Nat × Nat)
  tracks : List Nat
  vertexnormals : List Pt
deriving Repr

/-- `Scheme.add` on a `Mesh` (scheme.py lines 46-74): apply `set(kwargs)`,
fetch/create the index list of the current shader, append one vertex per
mesh point tagged with the current template, append the face index triples
offset by the prior vertex count, back-propagate each face's track onto
its three vertices, then overwrite the normals from `vertexnormals()`. -/
def Scheme.addMesh (s0 : Scheme) (m : Mesh) (kw : Kw := {}) : Scheme :=
  let s := s0.set kw
  let sh := s.current.shader
  let indices := getPrims s.primitives sh
  let l := s.vertices.length
  let verts := s.vertices ++ m.points.map (fun p =>
    { space := s.current.space.index, pos := p, normal := s.current.normal
      color := s.current.color, layer := s.current.layer
      track := s.current.track, flags := s.current.flags })
  let indices := indices ++ m.faces.map (fun f => [f.1 + l, f.2.1 + l, f.2.2 + l])
  let verts := (m.faces.zip m.tracks).foldl
    (fun vs ft =>
      setTrack (setTrack (setTrack vs (ft.1.1 + l) ft.2) (ft.1.2.1 + l) ft.2)
        (ft.1.2.2 + l) ft.2)
    verts
  let verts := applyNormals verts l m.vertexnormals
  { s with vertices := verts, primitives := setPrims s.primitives sh indices }

/-! ## Scheme display (scheme.py lines 106-230) -/

/-- the fixed space-array capacity (scheme.py line 114) -/
def max_spaces : Nat := 32

/-- the shader table built by `Scheme.display.load` (scheme.py lines
180-193): name 'line' -> LINES, 'fill' -> TRIANGLES; any other name is a
KeyError at display construction (line 163). -/
def topoOf (sh : String) : Option Topo :=
  if sh = "line" then some Topo.lines
  else if sh = "fill" then some Topo.triangles
  else none

/-- compiled scheme display state relevant to the claims -/
structure SchemeDisplay where
  spacegens : List SpaceObj
  warning : Bool
  nidents : Nat
  vas : List (String × Topo × List (List Nat))
  vai_triangles : List (List Nat)
  vai_lines : List (List Nat)
deriving DecidableEq, Repr

/-- the vertex-array build loop of `Scheme.display.__init__` (scheme.py
lines 156-169): skips empty batches, KeyError (= `none`) on unknown shader,
records each batch with its visual topology, and accumulates ident batches.
NB the source accumulates LINES batches into `ident_triangles` and
TRIANGLES batches into `ident_lines` (lines 168-169), exactly as modelled
here. -/
def buildVas (prims : List (String × List (List Nat))) :
    Option (List (String × Topo × List (List Nat)) × List (List Nat) × List (List Nat)) :=
  prims.foldl
    (fun acc p =>
      match acc with
      | none => none
      | some (vas, itri, ilin) =>
        if p.2 = [] then some (vas, itri, ilin)
        else
          match topoOf p.1 with
          | none => none
          | some prim =>
            some (vas ++ [(p.1, prim, p.2)],
                  if prim = Topo.lines then itri ++ p.2 else itri,
                  if prim = Topo.triangles then ilin ++ p.2 else ilin))
    (some ([], [], []))

/-- `Scheme.display.__init__` (scheme.py lines 116-172): warns when the
space count exceeds `max_spaces` (but still constructs), computes
`nidents = max(v[5] for v in vertices)+1` (raises on an empty scheme),
and builds the vertex arrays.  The bounding-box and nested-component
handling carry no logic used by the claims and are omitted. -/
def Scheme.displayInit (sch : Scheme) : Option SchemeDisplay :=
  let warning := decide (sch.spaces.length > max_spaces)
  match listMax (sch.vertices.map SVert.track) with
  | none => none
  | some m =>
    match buildVas sch.primitives with
    | none => none
    | some (vas, itri, ilin) =>
      some { spacegens := sch.spaces, warning := warning, nidents := m + 1
             vas := vas, vai_triangles := itri, vai_lines := ilin }

/-- stand-in evaluation of a space generator at the current view: the
produced matrix is opaque, so the token itself is returned -/
def evalSpace (o : SpaceObj) : Nat := o

/-- the write loop of `compute_spaces` (scheme.py lines 201-202):
`self.spaces[i] = gen(view)` into a fixed `max_spaces`-row array; an
out-of-bounds write is a numpy IndexError (= `none`). -/
def writeSpaces (arr : List Nat) : Nat → List SpaceObj → Option (List Nat)
  | _, [] => some arr
  | i, g :: gs =>
    if i < arr.length then writeSpaces (arr.set i (evalSpace g)) (i + 1) gs
    else none

/-- `Scheme.display.compute_spaces` (scheme.py lines 196-205) -/
def SchemeDisplay.computeSpaces (d : SchemeDisplay) : Option (List Nat) :=
  writeSpaces (List.replicate max_spaces 0) 0 d.spacegens

/-- `Scheme.display.render` (scheme.py lines 207-215): computes the spaces
then draws every vertex array with its visual topology; the draw list is
the reified result -/
def SchemeDisplay.render (d : SchemeDisplay) : Option (List (String × Topo)) :=
  (d.computeSpaces).map (fun _ => d.vas.map (fun v => (v.1, v.2.1)))

/-- `Scheme.display.identify` (scheme.py lines 217-224): renders
`vai_lines` with mgl.LINES and `vai_triangles` with mgl.TRIANGLES, each
only when non-empty -/
def SchemeDisplay.identifyDraws (d : SchemeDisplay) : List (Topo × List (List Nat)) :=
  (if d.vai_lines ≠ [] then [(Topo.lines, d.vai_lines)] else [])
    ++ (if d.vai_triangles ≠ [] then [(Topo.triangles, d.vai_triangles)] else [])

/-! ## Composite displays and their sub-displays (displays.py) -/

/-- `FacesDisplay` (displays.py lines 271-329): triangle sub-display over a
shared vertex store; `identify` binds the subident shader with the start
offset, draws the face index buffer as TRIANGLES and returns
`vertices.nident` -/
structure FacesDisplay where
  vertices : Vertices
  normals : List Pt
  faces : List (Nat × Nat × Nat)
deriving Repr

def FacesDisplay.identify (f : FacesDisplay) (start : Nat) : List Draw × Nat :=
  ([{ buffer := Buf.faces, topo := Topo.triangles, start := start }],
   f.vertices.nident)

/-- `LinesDisplay` (displays.py lines 331-372); `tag` records which slot of
the composite display this instance fills (groups / wire / edges), so that
the reified draw names its origin -/
structure LinesDisplay where
  tag : Buf
  vertices : Vertices
  lines : List (Nat × Nat)
deriving Repr

def LinesDisplay.identify (ld : LinesDisplay) (start : Nat) : List Draw × Nat :=
  ([{ buffer := ld.tag, topo := Topo.lines, start := start }],
   ld.vertices.nident)

/-- attribute names bound on `self` by `PointsDisplay.__init__`
(displays.py lines 376-403) -/
def pointsInitAttrs : List String :=
  ["color", "ptsize", "vertices", "shader", "va", "va_ident"]

/-- `PointsDisplay` (displays.py lines 374-417) -/
structure PointsDisplay where
  vertices : Vertices
  indices : Option (List Nat)
deriving Repr

/-- `PointsDisplay.identify` (displays.py lines 411-417) draws
`self.va_idents`; Python attribute lookup on a name `__init__` never bound
raises AttributeError, modelled by the membership guard returning `none` -/
def PointsDisplay.identify (p : PointsDisplay) (start : Nat) :
    Option (List Draw × Nat) :=
  if "va_idents" ∈ pointsInitAttrs then
    some ([{ buffer := Buf.pointsBuf, topo := Topo.points, start := start }],
          p.vertices.nident)
  else none

/-- wire edge list derived from the faces (displays.py lines 192-196) -/
def wireOf (faces : List (Nat × Nat × Nat)) : List (Nat × Nat) :=
  faces.flatMap (fun f => [(f.1, f.2.1), (f.2.1, f.2.2), (f.2.2, f.1)])

/-- `SolidDisplay` (displays.py lines 180-212): a shared vertex store plus
faces / group-lines / points / wire sub-displays -/
structure SolidDisplay where
  vertices : Vertices
  disp_faces : FacesDisplay
  disp_groups : LinesDisplay
  disp_points : PointsDisplay
  disp_wire : LinesDisplay
deriving Repr

/-- `SolidDisplay.__init__` (displays.py lines 183-197); fails iff the
shared vertex store construction does (empty ident list) -/
def SolidDisplay.init (positions normals : List Pt)
    (faces : List (Nat × Nat × Nat)) (lines : List (Nat × Nat))
    (idents : List Nat) : Option SolidDisplay :=
  (Vertices.init positions idents).map (fun v =>
    { vertices := v
      disp_faces := { vertices := v, normals := normals, faces := faces }
      disp_groups := { tag := Buf.groups, vertices := v, lines := lines }
      disp_points := { vertices := v, indices := none }
      disp_wire := { tag := Buf.wire, vertices := v, lines := wireOf faces } })

/-- `SolidDisplay.identify` (displays.py lines 206-209): delegates the
ident draw to the faces sub-display only and returns `vertices.nident` -/
def SolidDisplay.identify (d : SolidDisplay) (start : Nat) : List Draw × Nat :=
  ((d.disp_faces.identify start).1, d.vertices.nident)

/-- `WebDisplay` (displays.py lines 215-238): a shared vertex store plus
edge / group-points / points sub-displays -/
structure WebDisplay where
  vertices : Vertices
  disp_edges : LinesDisplay
  disp_groups : PointsDisplay
  disp_points : PointsDisplay
deriving Repr

/-- `WebDisplay.__init__` (displays.py lines 218-225) -/
def WebDisplay.init (positions : List Pt) (lines : List (Nat × Nat))
    (points : List Nat) (idents : List Nat) : Option WebDisplay :=
  (Vertices.init positions idents).map (fun v =>
    { vertices := v
      disp_edges := { tag := Buf.edges, vertices := v, lines := lines }
      disp_groups := { vertices := v, indices := some points }
      disp_points := { vertices := v, indices := none } })

/-- `WebDisplay.identify` (displays.py lines 233-235): delegates the ident
draw to the edges sub-display only and returns `vertices.nident` -/
def WebDisplay.identify (d : WebDisplay) (start : Nat) : List Draw × Nat :=
  ((d.disp_edges.identify start).1, d.vertices.nident)

/-- track field seen at index `j` of a scheme vertex list -/
def trackAt (vs : List SVert) (j : Nat) : Option Nat :=
  (vs[j]?).map SVert.track

/-! ## Helper lemmas -/

theorem lor_one_and_one (f : Nat) : (f ||| 1) &&& 1 = 1 := by
  rw [Nat.and_one_is_mod]
  have h : (f ||| 1).testBit 0 = true := by
    rw [Nat.testBit_or]
    simp
  rw [Nat.testBit_zero] at h
  exact of_decide_eq_true h

theorem le_listMax : ∀ (l : List Nat) (m : Nat), listMax l = some m → ∀ a ∈ l, a ≤ m := by
  intro l
  induction l with
  | nil => intro m h; cases h
  | cons x xs ih =>
    intro m h a ha
    rw [listMax] at h
    cases hx : listMax xs with
    | none =>
      rw [hx] at h
      injection h with h'
      subst h'
      rcases List.mem_cons.mp ha with rfl | hmem
      · exact Nat.le_refl a
      · cases xs with
        | nil => cases hmem
        | cons y ys =>
          rw [listMax] at hx
          cases h2 : listMax ys <;> simp [h2] at hx
    | some mx =>
      rw [hx] at h
      injection h with h'
      subst h'
      rcases List.mem_cons.mp ha with rfl | hmem
      · exact Nat.le_max_left _ _
      · exact Nat.le_trans (ih mx hx a hmem) (Nat.le_max_right _ _)

theorem dedup_length_dense (l : List Nat) (m : Nat) (hm : listMax l = some m)
    (hd : ∀ i, i ≤ m → i ∈ l) : l.dedup.length = m + 1 := by
  have hfs : l.toFinset = Finset.range (m + 1) := by
    ext i
    simp only [List.mem_toFinset, Finset.mem_range, Nat.lt_succ_iff]
    exact ⟨fun hi => le_listMax l m hm i hi, fun hi => hd i hi⟩
  calc l.dedup.length = l.toFinset.card := (List.card_toFinset l).symm
    _ = (Finset.range (m + 1)).card := by rw [hfs]
    _ = m + 1 := Finset.card_range _

theorem length_setTrack (vs : List SVert) (i t : Nat) :
    (setTrack vs i t).length = vs.length := by
  unfold setTrack
  cases vs[i]? <;> simp

theorem length_setNormal (vs : List SVert) (i : Nat) (n : Pt) :
    (setNormal vs i n).length = vs.length := by
  unfold setNormal
  cases vs[i]? <;> simp

theorem trackAt_setTrack_self (vs : List SVert) (i t : Nat) (h : i < vs.length) :
    trackAt (setTrack vs i t) i = some t := by
  unfold setTrack
  rw [List.getElem?_eq_getElem h]
  unfold trackAt
  rw [List.getElem?_set_self (by simpa using h)]
  rfl

theorem trackAt_setTrack_ne (vs : List SVert) (i j t : Nat) (h : i ≠ j) :
    trackAt (setTrack vs i t) j = trackAt vs j := by
  unfold setTrack
  cases hv : vs[i]? with
  | none => rfl
  | some v =>
    unfold trackAt
    rw [List.getElem?_set_ne h]

theorem trackAt_setNormal (vs : List SVert) (i : Nat) (n : Pt) (j : Nat) :
    trackAt (setNormal vs i n) j = trackAt vs j := by
  unfold setNormal
  cases hv : vs[i]? with
  | none => rfl
  | some v =>
    have hlen : i < vs.length := by
      by_contra hge
      rw [List.getElem?_eq_none (Nat.le_of_not_lt hge)] at hv
      cases hv
    unfold trackAt
    by_cases hij : i = j
    · subst hij
      rw [List.getElem?_set_self hlen, hv]
      rfl
    · rw [List.getElem?_set_ne hij]

theorem trackAt_applyNormals (ns : List Pt) : ∀ (vs : List SVert) (i j : Nat),
    trackAt (applyNormals vs i ns) j = trackAt vs j := by
  induction ns with
  | nil => intro vs i j; rfl
  | cons n ns ih =>
    intro vs i j
    have he : applyNormals vs i (n :: ns) = applyNormals (setNormal vs i n) (i + 1) ns := rfl
    rw [he, ih, trackAt_setNormal]

theorem length_applyNormals (ns : List Pt) : ∀ (vs : List SVert) (i : Nat),
    (applyNormals vs i ns).length = vs.length := by
  induction ns with
  | nil => intro vs i; rfl
  | cons n ns ih =>
    intro vs i
    have he : applyNormals vs i (n :: ns) = applyNormals (setNormal vs i n) (i + 1) ns := rfl
    rw [he, ih, length_setNormal]

theorem getPrims_setPrims_self (ps : List (String × List (List Nat)))
    (sh : String) (v : List (List Nat)) :
    getPrims (setPrims ps sh v) sh = v := by
  induction ps with
  | nil => simp [setPrims, getPrims]
  | cons p rest ih =>
    obtain ⟨k, w⟩ := p
    rw [setPrims]
    by_cases h : k = sh
    · simp [h, getPrims]
    · simp [h, getPrims, ih]

theorem Scheme.set_vertices (s : Scheme) (kw : Kw) :
    (s.set kw).vertices = s.vertices := by
  unfold Scheme.set Scheme.registerSpace
  split
  · rfl
  · split <;> rfl

theorem Scheme.set_primitives (s : Scheme) (kw : Kw) :
    (s.set kw).primitives = s.primitives := by
  unfold Scheme.set Scheme.registerSpace
  split
  · rfl
  · split <;> rfl

theorem trackAt_triple (vs : List SVert) (l a b c g j : Nat)
    (hlen : vs.length = l + 3) (ha : a < 3) (hb : b < 3) (hc : c < 3)
    (hab : a ≠ b) (hbc : b ≠ c) (hac : a ≠ c) (hj : j < 3) :
    trackAt (setTrack (setTrack (setTrack vs (a + l) g) (b + l) g) (c + l) g)
      (l + j) = some g := by
  have h1 : (setTrack vs (a + l) g).length = l + 3 := by rw [length_setTrack, hlen]
  have h2 : (setTrack (setTrack vs (a + l) g) (b + l) g).length = l + 3 := by
    rw [length_setTrack, h1]
  have hcase : j = a ∨ j = b ∨ j = c := by omega
  rcases hcase with h | h | h
  · rw [trackAt_setTrack_ne _ _ _ _ (show c + l ≠ l + j by omega)]
    rw [trackAt_setTrack_ne _ _ _ _ (show b + l ≠ l + j by omega)]
    have he : l + j = a + l := by omega
    rw [he]
    exact trackAt_setTrack_self _ _ _ (by rw [hlen]; omega)
  · rw [trackAt_setTrack_ne _ _ _ _ (show c + l ≠ l + j by omega)]
    have he : l + j = b + l := by omega
    rw [he]
    exact trackAt_setTrack_self _ _ _ (by rw [h1]; omega)
  · have he : l + j = c + l := by omega
    rw [he]
    exact trackAt_setTrack_self _ _ _ (by rw [h2]; omega)

theorem addMesh_tri (s : Scheme) (kw : Kw) (p0 p1 p2 n0 n1 n2 : Pt) (a b c g : Nat)
    (ha : a < 3) (hb : b < 3) (hc : c < 3)
    (hab : a ≠ b) (hbc : b ≠ c) (hac : a ≠ c) :
    ((s.addMesh ⟨[p0, p1, p2], [(a, b, c)], [g], [n0, n1, n2]⟩ kw).vertices.length
        = s.vertices.length + 3)
    ∧ (∀ j, j < 3 →
        trackAt (s.addMesh ⟨[p0, p1, p2], [(a, b, c)], [g], [n0, n1, n2]⟩ kw).vertices
          (s.vertices.length + j) = some g)
    ∧ (getPrims (s.addMesh ⟨[p0, p1, p2], [(a, b, c)], [g], [n0, n1, n2]⟩ kw).primitives
          ((s.set kw).current.shader)
        = getPrims s.primitives ((s.set kw).current.shader)
          ++ [[a + s.vertices.length, b + s.vertices.length, c + s.vertices.length]]) := by
  have hv := Scheme.set_vertices s kw
  have hp := Scheme.set_primitives s kw
  simp only [Scheme.addMesh, List.map_cons, List.map_nil, List.zip_cons_cons,
    List.zip_nil_right, List.foldl_cons, List.foldl_nil, hv, hp]
  refine ⟨?_, ?_, ?_⟩
  · rw [length_applyNormals, length_setTrack, length_setTrack, length_setTrack]
    simp
  · intro j hj
    rw [trackAt_applyNormals]
    exact trackAt_triple _ _ a b c g j (by simp) ha hb hc hab hbc hac hj
  · rw [getPrims_setPrims_self]

/-! ## Concrete instances used by witnesses and counterexamples -/

/-- a scheme vertex with the given track and neutral payload -/
def sv (t : Nat) : SVert :=
  { space := 0, pos := (0, 0, 0), normal := (0, 0, 0), color := 0, layer := 0
    track := t, flags := 0 }

/-- a scheme holding one explicit vertex of track 4 (the `Scheme.__init__`
constructor accepts prebuilt vertex/space/primitive data) -/
def schemeW : Scheme :=
  { vertices := [sv 4], spaces := [0], primitives := []
    current := Scheme.empty.current }

/-- a concrete shared vertex store: three vertices, idents 0,1,0 -/
def verticesW : Vertices :=
  { transform := 0, idents := [0, 1, 0], nident := 2, flags := [0, 0, 0]
    flags_updated := false }

/-! ## Claim theorems -/

/-- C1: for every shared vertex store built from a non-empty ident list —
by `Vertices.__init__` (displays.py line 247) or by `Scheme.display.__init__`
(scheme.py line 134) — the stored ident count equals `max(idents) + 1`
right after construction. -/
theorem claim1_nident_max_plus_one
    (positions : List Pt) (idents : List Nat) (m : Nat)
    (hm : listMax idents = some m)
    (sch : Scheme) (mt : Nat)
    (ht : listMax (sch.vertices.map SVert.track) = some mt) :
    (∃ v, Vertices.init positions idents = some v ∧ v.nident = m + 1)
    ∧ (∀ d, sch.displayInit = some d → d.nidents = mt + 1) := by
  constructor
  · unfold Vertices.init
    rw [hm]
    exact ⟨_, rfl, rfl⟩
  · intro d hd
    unfold Scheme.displayInit at hd
    rw [ht] at hd
    cases hb : buildVas sch.primitives with
    | none => rw [hb] at hd; cases hd
    | some t =>
      obtain ⟨vas, itri, ilin⟩ := t
      rw [hb] at hd
      cases hd
      rfl

/-- witness for C1 at concrete inputs -/
theorem claim1_witness :
    (∃ v, Vertices.init [((0 : Int), 0, 0)] [0, 2] = some v ∧ v.nident = 3)
    ∧ (∀ d, schemeW.displayInit = some d → d.nidents = 5) :=
  claim1_nident_max_plus_one [((0 : Int), 0, 0)] [0, 2] 2 (by decide)
    schemeW 4 (by decide)

/-- C3: `select(id, True)` marks every vertex sharing ident `id` as
selected (`select(id)` then reads a set bit both per ident and per vertex),
and leaves the selection state of every vertex carrying a different ident
exactly as it was. -/
theorem claim3_select_ident_group
    (v : Vertices) (id : Nat) (h : id < v.flags.length) :
    ∃ v1, v.select_set id true = some v1
      ∧ v1.select_get id = some 1
      ∧ (∀ k, v.idents[k]? = some id → v1.vertexSelected k = some 1)
      ∧ (∀ k i, v.idents[k]? = some i → i ≠ id →
          v1.vertexSelected k = v.vertexSelected k) := by
  have hf : v.flags[id]? = some (v.flags[id]) := List.getElem?_eq_getElem h
  have hset : v.select_set id true
      = some { v with flags := v.flags.set id (v.flags[id] ||| 1)
                      flags_updated := true } := by
    unfold Vertices.select_set
    rw [hf]
    rfl
  refine ⟨_, hset, ?_, ?_, ?_⟩
  · simp [Vertices.select_get, h, lor_one_and_one]
  · intro k hk
    simp [Vertices.vertexSelected, hk, h, lor_one_and_one]
  · intro k i hk hne
    simp [Vertices.vertexSelected, hk, List.getElem?_set_ne (Ne.symm hne)]

/-- witness for C3 at a concrete store -/
theorem claim3_witness :
    ∃ v1, verticesW.select_set 0 true = some v1
      ∧ v1.select_get 0 = some 1
      ∧ (∀ k, verticesW.idents[k]? = some 0 → v1.vertexSelected k = some 1)
      ∧ (∀ k i, verticesW.idents[k]? = some i → i ≠ 0 →
          v1.vertexSelected k = verticesW.vertexSelected k) :=
  claim3_select_ident_group verticesW 0 (by decide)

/-- C4: two `update` calls with no intervening `select` upload at most
once — after the first call the dirty flag is clear and the second call
performs no upload. -/
theorem claim4_update_idempotent (v : Vertices) :
    (v.update.2).flags_updated = false ∧ ((v.update.2).update).1 = false := by
  unfold Vertices.update
  by_cases h : v.flags_updated <;> simp [h]

/-- C8 counterexample: `Vertices.__init__` with 2 positions and 3 idents
completes normally — it does not fail on the length mismatch. -/
theorem claim8_counterexample :
    (Vertices.init [((0 : Int), 0, 0), (1, 0, 0)] [0, 1, 2]).isSome = true
    ∧ ([((0 : Int), 0, 0), (1, 0, 0)] : List Pt).length
        ≠ ([0, 1, 2] : List Nat).length := by decide

/-- C8 (amended): construction performs no length check — for any
positions and any non-empty idents, also when the lengths differ, it
completes normally with `nident = max(idents)+1` and a flags array sized
by the positions. -/
theorem claim8_amended (positions : List Pt) (idents : List Nat) (m : Nat)
    (hm : listMax idents = some m)
    (_hne : positions.length ≠ idents.length) :
    ∃ v, Vertices.init positions idents = some v
      ∧ v.nident = m + 1 ∧ v.flags.length = positions.length := by
  unfold Vertices.init
  rw [hm]
  exact ⟨_, rfl, rfl, by simp⟩

/-- witness for C8 (amended) at the counterexample input -/
theorem claim8_witness :
    ∃ v, Vertices.init [((0 : Int), 0, 0), (1, 0, 0)] [0, 1, 2] = some v
      ∧ v.nident = 3 ∧ v.flags.length = 2 :=
  claim8_amended [((0 : Int), 0, 0), (1, 0, 0)] [0, 1, 2] 2 (by decide) (by decide)

/-- C10: `PointsDisplay.identify` never succeeds: it draws `self.va_idents`
but `__init__` only ever bound `va_ident`, so the attribute lookup raises
AttributeError on every constructed instance. -/
theorem claim10_points_identify_raises (p : PointsDisplay) (start : Nat) :
    p.identify start = none := by
  unfold PointsDisplay.identify
  rw [if_neg (by decide)]

/-- C2: `SolidDisplay.identify` (and `WebDisplay.identify` for wire-only
objects) issues its ident draw only through the faces (resp. edges)
sub-display — never through the group/point/wire sub-displays — and
returns `nident`, which under the spec's density invariant (idents form a
dense surjection onto `[0, nident)`) is the number of distinct idents the
object contributes. -/
theorem claim2_identify_delegation
    (positions normals : List Pt) (faces : List (Nat × Nat × Nat))
    (lines : List (Nat × Nat)) (points idents : List Nat) (m start : Nat)
    (hm : listMax idents = some m)
    (hdense : ∀ i, i ≤ m → i ∈ idents) :
    (∀ sd, SolidDisplay.init positions normals faces lines idents = some sd →
      sd.identify start
        = ([{ buffer := Buf.faces, topo := Topo.triangles, start := start }],
           sd.vertices.nident)
      ∧ sd.vertices.nident = idents.dedup.length)
    ∧ (∀ wd, WebDisplay.init positions lines points idents = some wd →
      wd.identify start
        = ([{ buffer := Buf.edges, topo := Topo.lines, start := start }],
           wd.vertices.nident)
      ∧ wd.vertices.nident = idents.dedup.length) := by
  have hded := dedup_length_dense idents m hm hdense
  constructor
  · intro sd hsd
    unfold SolidDisplay.init Vertices.init at hsd
    rw [hm] at hsd
    cases hsd
    exact ⟨rfl, hded.symm⟩
  · intro wd hwd
    unfold WebDisplay.init Vertices.init at hwd
    rw [hm] at hwd
    cases hwd
    exact ⟨rfl, hded.symm⟩

/-- witness for C2 at concrete display inputs -/
theorem claim2_witness :
    (∀ sd, SolidDisplay.init [((0 : Int), 0, 0), (1, 0, 0)] [((0 : Int), 0, 1)]
        [(0, 1, 0)] [(0, 1)] [1, 0] = some sd →
      sd.identify 7
        = ([{ buffer := Buf.faces, topo := Topo.triangles, start := 7 }],
           sd.vertices.nident)
      ∧ sd.vertices.nident = ([1, 0] : List Nat).dedup.length)
    ∧ (∀ wd, WebDisplay.init [((0 : Int), 0, 0), (1, 0, 0)] [(0, 1)] [0] [1, 0]
        = some wd →
      wd.identify 7
        = ([{ buffer := Buf.edges, topo := Topo.lines, start := 7 }],
           wd.vertices.nident)
      ∧ wd.vertices.nident = ([1, 0] : List Nat).dedup.length) :=
  claim2_identify_delegation [((0 : Int), 0, 0), (1, 0, 0)] [((0 : Int), 0, 1)]
    [(0, 1, 0)] [(0, 1)] [0] [1, 0] 1 7 (by decide) (by decide)

/-- keyword argument `shader='fill'` (the triangle shader of the display
table) -/
def kwFill : Kw := { shader := some "fill" }

/-- a 3-point mesh whose single triangular face lists its points in the
order (0,2,1) -/
def meshCE : Mesh :=
  { points := [(0, 0, 0), (1, 0, 0), (0, 1, 0)]
    faces := [(0, 2, 1)], tracks := [7]
    vertexnormals := [(0, 0, 1), (0, 0, 1), (0, 0, 1)] }

/-- C5 counterexample: adding `meshCE` to a fresh scheme appends the triple
(0,2,1) — the face's own index order — not the claimed (0,1,2). -/
theorem claim5_counterexample :
    getPrims (Scheme.empty.addMesh meshCE kwFill).primitives "fill" = [[0, 2, 1]]
    ∧ [[0, 2, 1]] ≠ [[(0 : Nat), 1, 2]] := by decide

/-- C5 (amended): `Scheme.add` on a mesh of 3 points and one triangular
face (a,b,c) — the indices a permutation of 0,1,2 — appends exactly 3
vertices, all carrying the face's group id, and the primitive-index list of
the current shader gains exactly one triple `(a+l, b+l, c+l)` (the face's
own index order offset by the prior vertex count; equal to `(0,1,2)+l`
exactly when the face is `(0,1,2)`). -/
theorem claim5_add_triangle
    (s : Scheme) (kw : Kw) (p0 p1 p2 n0 n1 n2 : Pt) (a b c g : Nat)
    (ha : a < 3) (hb : b < 3) (hc : c < 3)
    (hab : a ≠ b) (hbc : b ≠ c) (hac : a ≠ c) :
    ((s.addMesh ⟨[p0, p1, p2], [(a, b, c)], [g], [n0, n1, n2]⟩ kw).vertices.length
        = s.vertices.length + 3)
    ∧ (∀ j, j < 3 →
        trackAt (s.addMesh ⟨[p0, p1, p2], [(a, b, c)], [g], [n0, n1, n2]⟩ kw).vertices
          (s.vertices.length + j) = some g)
    ∧ (getPrims (s.addMesh ⟨[p0, p1, p2], [(a, b, c)], [g], [n0, n1, n2]⟩ kw).primitives
          ((s.set kw).current.shader)
        = getPrims s.primitives ((s.set kw).current.shader)
          ++ [[a + s.vertices.length, b + s.vertices.length, c + s.vertices.length]]) :=
  addMesh_tri s kw p0 p1 p2 n0 n1 n2 a b c g ha hb hc hab hbc hac

/-- witness for C5 (amended) at the counterexample mesh -/
theorem claim5_witness :
    ((Scheme.empty.addMesh ⟨[((0 : Int), 0, 0), (1, 0, 0), (0, 1, 0)], [(0, 2, 1)],
        [7], [(0, 0, 1), (0, 0, 1), (0, 0, 1)]⟩ kwFill).vertices.length
        = Scheme.empty.vertices.length + 3)
    ∧ (∀ j, j < 3 →
        trackAt (Scheme.empty.addMesh ⟨[((0 : Int), 0, 0), (1, 0, 0), (0, 1, 0)],
            [(0, 2, 1)], [7], [(0, 0, 1), (0, 0, 1), (0, 0, 1)]⟩ kwFill).vertices
          (Scheme.empty.vertices.length + j) = some 7)
    ∧ (getPrims (Scheme.empty.addMesh ⟨[((0 : Int), 0, 0), (1, 0, 0), (0, 1, 0)],
            [(0, 2, 1)], [7], [(0, 0, 1), (0, 0, 1), (0, 0, 1)]⟩ kwFill).primitives
          ((Scheme.empty.set kwFill).current.shader)
        = getPrims Scheme.empty.primitives ((Scheme.empty.set kwFill).current.shader)
          ++ [[0 + Scheme.empty.vertices.length, 2 + Scheme.empty.vertices.length,
               1 + Scheme.empty.vertices.length]]) :=
  claim5_add_triangle Scheme.empty kwFill ((0 : Int), 0, 0) (1, 0, 0) (0, 1, 0)
    (0, 0, 1) (0, 0, 1) (0, 0, 1) 0 2 1 7
    (by decide) (by decide) (by decide) (by decide) (by decide) (by decide)

theorem listMax_three_same (g : Nat) : listMax [g, g, g] = some g := by
  simp [listMax, Nat.max_self]

theorem map_track_addMesh_fresh
    (s : Scheme) (hs : s.vertices = []) (kw : Kw)
    (p0 p1 p2 n0 n1 n2 : Pt) (a b c g : Nat)
    (ha : a < 3) (hb : b < 3) (hc : c < 3)
    (hab : a ≠ b) (hbc : b ≠ c) (hac : a ≠ c) :
    (s.addMesh ⟨[p0, p1, p2], [(a, b, c)], [g], [n0, n1, n2]⟩ kw).vertices.map
      SVert.track = [g, g, g] := by
  obtain ⟨hlen, htr, -⟩ := addMesh_tri s kw p0 p1 p2 n0 n1 n2 a b c g ha hb hc hab hbc hac
  have hz : s.vertices.length = 0 := by rw [hs]; rfl
  rw [hz] at hlen htr
  simp only [Nat.zero_add] at hlen htr
  obtain ⟨x, y, z, hxyz⟩ := List.length_eq_three.mp hlen
  have h0 := htr 0 (by omega)
  have h1 := htr 1 (by omega)
  have h2 := htr 2 (by omega)
  rw [hxyz] at h0 h1 h2 ⊢
  simp only [trackAt] at h0 h1 h2
  simp at h0 h1 h2
  simp [h0, h1, h2]

/-- a 3-point, one-face mesh whose only group id is 5 (non-contiguous:
the id set is the singleton set with 5) -/
def meshC6 : Mesh :=
  { points := [(0, 0, 0), (1, 0, 0), (0, 1, 0)]
    faces := [(0, 1, 2)], tracks := [5]
    vertexnormals := [(0, 0, 1), (0, 0, 1), (0, 0, 1)] }

/-- C6 counterexample: a scheme built from a one-face mesh of group id 5
compiles to a display with `nidents = 6`, while the mesh has exactly one
distinct group id. -/
theorem claim6_counterexample :
    ((Scheme.empty.addMesh meshC6 kwFill).displayInit).map SchemeDisplay.nidents
        = some 6
    ∧ meshC6.tracks.dedup.length = 1 ∧ (6 : Nat) ≠ 1 := by decide

/-- C6 (amended): the compiled display's ident count is the largest group
id present plus one — `max(ids)+1`, which equals the number of distinct
group ids only when the ids are contiguous from 0.  For a fresh scheme and
a one-face mesh of group id `g` covering its 3 points, `nidents = g + 1`. -/
theorem claim6_display_nidents
    (p0 p1 p2 n0 n1 n2 : Pt) (a b c g : Nat)
    (ha : a < 3) (hb : b < 3) (hc : c < 3)
    (hab : a ≠ b) (hbc : b ≠ c) (hac : a ≠ c) :
    ∃ d, (Scheme.empty.addMesh ⟨[p0, p1, p2], [(a, b, c)], [g], [n0, n1, n2]⟩
          kwFill).displayInit = some d
      ∧ d.nidents = g + 1 := by
  have hmap := map_track_addMesh_fresh Scheme.empty rfl kwFill p0 p1 p2 n0 n1 n2
    a b c g ha hb hc hab hbc hac
  have hprim : (Scheme.empty.addMesh ⟨[p0, p1, p2], [(a, b, c)], [g], [n0, n1, n2]⟩
      kwFill).primitives = [("fill", [[a, b, c]])] := rfl
  unfold Scheme.displayInit
  rw [hmap, listMax_three_same, hprim]
  exact ⟨_, rfl, rfl⟩

/-- witness for C6 (amended) at the counterexample mesh -/
theorem claim6_witness :
    ∃ d, (Scheme.empty.addMesh ⟨[((0 : Int), 0, 0), (1, 0, 0), (0, 1, 0)],
          [(0, 1, 2)], [5], [(0, 0, 1), (0, 0, 1), (0, 0, 1)]⟩ kwFill).displayInit
        = some d
      ∧ d.nidents = 6 :=
  claim6_display_nidents ((0 : Int), 0, 0) (1, 0, 0) (0, 1, 0)
    (0, 0, 1) (0, 0, 1) (0, 0, 1) 0 1 2 5
    (by decide) (by decide) (by decide) (by decide) (by decide) (by decide)

/-- a scheme with 33 distinct spaces (one more than `max_spaces`), one
vertex, no primitive batches -/
def schemeC7 : Scheme :=
  { vertices := [sv 0], spaces := List.range 33, primitives := []
    current := Scheme.empty.current }

/-- C7: with 33 distinct spaces the display still constructs and the
capacity warning fires, but the per-frame space computation — and hence
rendering — fails with an out-of-bounds write (`self.spaces[32]` in a
32-row array) instead of clamping: the frame does not render. -/
theorem claim7_space_overflow_crashes :
    ((schemeC7.displayInit).map SchemeDisplay.warning = some true)
    ∧ ((schemeC7.displayInit).bind SchemeDisplay.computeSpaces = none)
    ∧ ((schemeC7.displayInit).bind SchemeDisplay.render = none) := by decide

/-- a scheme with one line-shader batch of a single segment (0,1) -/
def schemeC9 : Scheme :=
  { vertices := [sv 0, sv 0], spaces := [0], primitives := [("line", [[0, 1]])]
    current := Scheme.empty.current }

/-- C9: the batch drawn as LINES in the visual pass is accumulated into
`ident_triangles` (scheme.py line 168) and hence drawn as TRIANGLES in the
ident pass — the ident topology does not match the visual topology. -/
theorem claim9_ident_topology_swapped :
    (schemeC9.displayInit).map (fun d => (d.vas, d.identifyDraws))
      = some ([("line", Topo.lines, [[0, 1]])], [(Topo.triangles, [[0, 1]])]) := by
  rfl
